import Mathlib

/-!
Verification of the S.O.S. (Sovereign Oxygen System) alert lifecycle and
tank-threshold logic, shallowly embedded from the TypeScript entities
`src/database/entities/OxygenTank.ts` and `src/database/entities/Alert.ts`.

JavaScript numbers are modelled by `JSNum`: an exact rational together with
the IEEE special values +Infinity, -Infinity and NaN, with division,
multiplication and comparison following IEEE-754 semantics (exact on the
rational subset, which covers every computation the entities perform).
Timestamps (`Date`) are modelled as integer milliseconds since the epoch;
methods that call `new Date()` receive the current time as an explicit
`now` argument.  Nullable columns become `Option` fields, and JavaScript
string truthiness (empty string is falsy) is modelled explicitly.
-/

namespace SOS

/-- A JavaScript number: an exact rational or one of the IEEE special values. -/
inductive JSNum where
  | finite (q : ℚ)
  | posInf
  | negInf
  | nan
deriving DecidableEq, Repr

/-- IEEE `<=` comparison: any comparison with NaN is false. -/
def jsLe : JSNum → JSNum → Bool
  | .nan, _ => false
  | _, .nan => false
  | .negInf, _ => true
  | .posInf, .posInf => true
  | .posInf, _ => false
  | .finite _, .posInf => true
  | .finite _, .negInf => false
  | .finite a, .finite b => decide (a ≤ b)

/-- IEEE division: finite / 0 gives a signed infinity (or NaN for 0 / 0). -/
def jsDiv : JSNum → JSNum → JSNum
  | .nan, _ => .nan
  | _, .nan => .nan
  | .posInf, .posInf => .nan
  | .posInf, .negInf => .nan
  | .negInf, .posInf => .nan
  | .negInf, .negInf => .nan
  | .posInf, .finite b => if b < 0 then .negInf else .posInf
  | .negInf, .finite b => if b < 0 then .posInf else .negInf
  | .finite _, .posInf => .finite 0
  | .finite _, .negInf => .finite 0
  | .finite a, .finite b =>
    if b = 0 then (if 0 < a then .posInf else if a < 0 then .negInf else .nan)
    else .finite (a / b)

/-- IEEE multiplication; infinity times zero is NaN. -/
def jsMul : JSNum → JSNum → JSNum
  | .nan, _ => .nan
  | _, .nan => .nan
  | .posInf, .posInf => .posInf
  | .posInf, .negInf => .negInf
  | .negInf, .posInf => .negInf
  | .negInf, .negInf => .posInf
  | .posInf, .finite b => if 0 < b then .posInf else if b < 0 then .negInf else .nan
  | .negInf, .finite b => if 0 < b then .negInf else if b < 0 then .posInf else .nan
  | .finite a, .posInf => if 0 < a then .posInf else if a < 0 then .negInf else .nan
  | .finite a, .negInf => if 0 < a then .negInf else if a < 0 then .posInf else .nan
  | .finite a, .finite b => .finite (a * b)

/-- The fields of the `OxygenTank` entity used by its monitoring methods
(`src/database/entities/OxygenTank.ts`).  Nullable columns are `Option`. -/
structure OxygenTank where
  capacity : JSNum
  currentLevel : JSNum
  fillPercentage : JSNum
  currentPressure : JSNum
  maxPressure : JSNum
  minPressure : JSNum
  criticalPressure : JSNum
  refillThreshold : JSNum
  isLeaking : Bool
  isDamaged : Bool
  temperature : Option JSNum
  humidity : Option JSNum
  lastReadingAt : Option Int
deriving DecidableEq, Repr

namespace OxygenTank

/-- `needsRefill(): boolean` — `this.fillPercentage <= this.refillThreshold`. -/
def needsRefill (t : OxygenTank) : Bool :=
  jsLe t.fillPercentage t.refillThreshold

/-- `isCritical(): boolean` —
`this.currentPressure <= this.criticalPressure || this.fillPercentage <= 10`. -/
def isCritical (t : OxygenTank) : Bool :=
  jsLe t.currentPressure t.criticalPressure || jsLe t.fillPercentage (.finite 10)

/-- `updateReadings(currentLevel, currentPressure, temperature?, humidity?)`:
stores the new readings, computes
`fillPercentage = (currentLevel / this.capacity) * 100`, stamps
`lastReadingAt`, and copies the optional readings when they are defined.
(`updateUsageStatistics` only re-stamps `lastReadingAt` with the same call
time.)  The method performs no validation and cannot fail. -/
def updateReadings (t : OxygenTank) (currentLevel currentPressure : JSNum)
    (temperature humidity : Option JSNum) (now : Int) : OxygenTank :=
  { t with
    currentLevel := currentLevel
    currentPressure := currentPressure
    fillPercentage := jsMul (jsDiv currentLevel t.capacity) (.finite 100)
    lastReadingAt := some now
    temperature := match temperature with
      | some x => some x
      | none => t.temperature
    humidity := match humidity with
      | some x => some x
      | none => t.humidity }

end OxygenTank

/-- `AlertStatus` enum from `Alert.ts`. -/
inductive AlertStatus where
  | active
  | acknowledged
  | resolved
  | escalated
  | dismissed
deriving DecidableEq, Repr

/-- `NotificationMethod` enum from `Alert.ts`. -/
inductive NotificationMethod where
  | email
  | sms
  | push
  | inApp
  | voice
  | pager
deriving DecidableEq, Repr

/-- Delivery status literal type `'sent' | 'delivered' | 'failed'`. -/
inductive DeliveryStatus where
  | sent
  | delivered
  | failed
deriving DecidableEq, Repr

/-- One entry of `Alert.actionHistory`. -/
structure ActionEntry where
  action : String
  performedBy : String
  performedAt : Int
  details : String
deriving DecidableEq, Repr

/-- One entry of `Alert.escalationHistory`. -/
structure EscalationEntry where
  level : Int
  escalatedTo : String
  escalatedAt : Int
  reason : String
deriving DecidableEq, Repr

/-- One entry of `Alert.notificationHistory`. -/
structure NotificationEntry where
  method : NotificationMethod
  recipient : String
  sentAt : Int
  deliveryStatus : DeliveryStatus
  error : Option String
deriving DecidableEq, Repr

/-- JavaScript truthiness of a nullable string: null/undefined and the
empty string are falsy. -/
def strTruthy : Option String → Bool
  | some s => s ≠ ""
  | none => false

/-- JavaScript `s || ''` on a nullable string. -/
def strOrEmpty (s : Option String) : String :=
  s.getD ""

/-- The fields of the `Alert` entity read or written by its lifecycle
methods (`src/database/entities/Alert.ts`).  Nullable columns are
`Option`; the three history JSON columns are nullable arrays. -/
structure Alert where
  status : AlertStatus
  acknowledgedBy : Option String
  acknowledgedAt : Option Int
  resolvedBy : Option String
  resolvedAt : Option Int
  resolutionNotes : Option String
  escalatedTo : Option String
  escalatedAt : Option Int
  escalationReason : Option String
  escalationLevel : Int
  acknowledgmentCount : Int
  notificationCount : Int
  notificationHistory : Option (List NotificationEntry)
  escalationHistory : Option (List EscalationEntry)
  actionHistory : Option (List ActionEntry)
  requiresAcknowledgment : Bool
  autoEscalate : Bool
  escalationDelay : Int
  notes : Option String
  createdAt : Int
deriving DecidableEq, Repr

namespace Alert

/-- `private addActionHistory(action, performedBy, details?)`: initialises
the nullable array if needed and pushes one entry stamped `new Date()`
(modelled as `now`), with `details || ''`. -/
def addActionHistory (a : Alert) (action performedBy : String)
    (details : Option String) (now : Int) : Alert :=
  { a with
    actionHistory := some (a.actionHistory.getD [] ++
      [{ action := action, performedBy := performedBy, performedAt := now,
         details := strOrEmpty details }]) }

/-- The value the `notes` column holds after
`if (notes) this.notes = this.notes ? this.notes + newline + notes : notes`
(JavaScript truthiness on both strings). -/
def notesAfter (cur incoming : Option String) : Option String :=
  if strTruthy incoming then
    some (if strTruthy cur then strOrEmpty cur ++ "\n" ++ strOrEmpty incoming
          else strOrEmpty incoming)
  else cur

/-- `acknowledge(acknowledgedBy, notes?)`: unconditionally sets
status/acknowledgedBy/acknowledgedAt, increments `acknowledgmentCount`,
appends the incoming notes to the `notes` column when truthy, and appends
one action-history entry.  The method performs no state check. -/
def acknowledge (a : Alert) (acknowledgedBy : String) (notes : Option String)
    (now : Int) : Alert :=
  addActionHistory
    { a with
      status := .acknowledged
      acknowledgedBy := some acknowledgedBy
      acknowledgedAt := some now
      acknowledgmentCount := a.acknowledgmentCount + 1
      notes := notesAfter a.notes notes }
    "acknowledged" acknowledgedBy (some (strOrEmpty notes)) now

/-- `resolve(resolvedBy, resolutionNotes?)`: unconditionally sets
status/resolvedBy/resolvedAt, stores `resolutionNotes || null`, and appends
one action-history entry.  The method performs no state check. -/
def resolve (a : Alert) (resolvedBy : String) (resolutionNotes : Option String)
    (now : Int) : Alert :=
  addActionHistory
    { a with
      status := .resolved
      resolvedBy := some resolvedBy
      resolvedAt := some now
      resolutionNotes :=
        if strTruthy resolutionNotes then some (strOrEmpty resolutionNotes)
        else none }
    "resolved" resolvedBy (some (strOrEmpty resolutionNotes)) now

/-- `escalate(escalatedTo, reason)`: unconditionally sets
status/escalatedTo/escalatedAt/escalationReason, increments
`escalationLevel`, pushes one escalation-history entry carrying the new
level, and appends one action-history entry.  The method performs no state
check. -/
def escalate (a : Alert) (escalatedTo : String) (reason : String)
    (now : Int) : Alert :=
  let a1 : Alert :=
    { a with
      status := .escalated
      escalatedTo := some escalatedTo
      escalatedAt := some now
      escalationReason := some reason
      escalationLevel := a.escalationLevel + 1 }
  addActionHistory
    { a1 with
      escalationHistory := some (a1.escalationHistory.getD [] ++
        [{ level := a1.escalationLevel, escalatedTo := escalatedTo,
           escalatedAt := now, reason := reason }]) }
    "escalated" escalatedTo (some reason) now

/-- `dismiss(dismissedBy, reason?)`: sets status and appends one
action-history entry; it touches no other field.  The method performs no
state check. -/
def dismiss (a : Alert) (dismissedBy : String) (reason : Option String)
    (now : Int) : Alert :=
  addActionHistory { a with status := .dismissed }
    "dismissed" dismissedBy (some (strOrEmpty reason)) now

/-- `addNotification(method, recipient, status, error?)`: initialises the
nullable array if needed, pushes one entry stamped `new Date()`, and
increments `notificationCount`.  Allowed in any state; no other field is
touched. -/
def addNotification (a : Alert) (method : NotificationMethod)
    (recipient : String) (deliveryStatus : DeliveryStatus)
    (error : Option String) (now : Int) : Alert :=
  { a with
    notificationHistory :=
      some (a.notificationHistory.getD [] ++
        [{ method := method, recipient := recipient, sentAt := now,
           deliveryStatus := deliveryStatus, error := error }])
    notificationCount := a.notificationCount + 1 }

/-- `getDuration(): number` — minutes elapsed since `createdAt`:
`Math.floor((now - created) / (1000 * 60))` with times in milliseconds. -/
def getDuration (a : Alert) (now : Int) : Int :=
  Int.fdiv (now - a.createdAt) 60000

/-- `shouldEscalate(): boolean` — false unless `autoEscalate` and status is
Active; otherwise compares `getDuration()` (minutes) against
`escalationDelay` (stored in seconds, default 300). -/
def shouldEscalate (a : Alert) (now : Int) : Bool :=
  if !a.autoEscalate || a.status ≠ .active then false
  else decide (getDuration a now ≥ a.escalationDelay)

end Alert

/-- One invocation of a mutating `Alert` method, used to reason about
arbitrary sequences of operations on a single alert instance. -/
inductive AlertOp where
  | ack (actor : String) (notes : Option String) (now : Int)
  | res (actor : String) (notes : Option String) (now : Int)
  | esc (target : String) (reason : String) (now : Int)
  | dis (actor : String) (reason : Option String) (now : Int)
  | notif (method : NotificationMethod) (recipient : String)
      (deliveryStatus : DeliveryStatus) (error : Option String) (now : Int)
deriving DecidableEq, Repr

/-- Apply one mutating method invocation to an alert. -/
def applyOp : AlertOp → Alert → Alert
  | .ack actor notes now, a => a.acknowledge actor notes now
  | .res actor notes now, a => a.resolve actor notes now
  | .esc target reason now, a => a.escalate target reason now
  | .dis actor reason now, a => a.dismiss actor reason now
  | .notif m r s e now, a => a.addNotification m r s e now

/-- Apply a sequence of mutating method invocations, oldest first. -/
def runOps (ops : List AlertOp) (a : Alert) : Alert :=
  ops.foldl (fun acc op => applyOp op acc) a

/-- A freshly created alert: the column defaults of `Alert.ts` (status
Active, counters 0, nullable columns null, `escalationDelay` 300). -/
def baseAlert : Alert :=
  { status := .active
    acknowledgedBy := none
    acknowledgedAt := none
    resolvedBy := none
    resolvedAt := none
    resolutionNotes := none
    escalatedTo := none
    escalatedAt := none
    escalationReason := none
    escalationLevel := 0
    acknowledgmentCount := 0
    notificationCount := 0
    notificationHistory := none
    escalationHistory := none
    actionHistory := none
    requiresAcknowledgment := false
    autoEscalate := false
    escalationDelay := 300
    notes := none
    createdAt := 0 }

/-- An alert that has already been resolved (terminal per the spec). -/
def resolvedAlert : Alert :=
  { baseAlert with
    status := .resolved
    resolvedBy := some "opX"
    resolvedAt := some 3
    resolutionNotes := some "refilled" }

/-- An alert that was first acknowledged by operator opA at time 10. -/
def ackedAlert : Alert :=
  { baseAlert with
    status := .acknowledged
    acknowledgedBy := some "opA"
    acknowledgedAt := some 10
    acknowledgmentCount := 1 }

/-- An Active alert with auto-escalation enabled and the default
300-second escalation delay, created at epoch time 0. -/
def autoAlert : Alert :=
  { baseAlert with autoEscalate := true }

/-- An alert whose free-text notes column already holds text. -/
def notedAlert : Alert :=
  { baseAlert with notes := some "old" }

/-- A healthy tank matching the spec scenarios: capacity 100 L, refill
threshold 20 %, pressure bounds 100/2200 psi, critical pressure 50 psi. -/
def baseTank : OxygenTank :=
  { capacity := .finite 100
    currentLevel := .finite 50
    fillPercentage := .finite 50
    currentPressure := .finite 1200
    maxPressure := .finite 2200
    minPressure := .finite 100
    criticalPressure := .finite 50
    refillThreshold := .finite 20
    isLeaking := false
    isDamaged := false
    temperature := none
    humidity := none
    lastReadingAt := none }

/-- A tank whose configured capacity is zero. -/
def zeroCapTank : OxygenTank :=
  { baseTank with capacity := .finite 0 }

/-- A tank below its critical pressure (40 psi against 50) with an
otherwise comfortable fill level of 80 %. -/
def critTank : OxygenTank :=
  { baseTank with currentPressure := .finite 40, fillPercentage := .finite 80 }

/-! ## Theorems about the tank threshold logic -/

/-- C5 counterexample: on a zero-capacity tank, `updateReadings` does not
signal any configuration error — it is a total function that performs the
division and stores a non-finite fill percentage (Infinity for a positive
level, NaN for a zero level). -/
theorem updateReadings_zero_capacity_cex :
    (zeroCapTank.updateReadings (.finite 15) (.finite 90) none none 3).fillPercentage
      = JSNum.posInf ∧
    (zeroCapTank.updateReadings (.finite 0) (.finite 90) none none 3).fillPercentage
      = JSNum.nan := by
  decide

/-- C5 (amended): `updateReadings` performs no capacity validation: with a
configured capacity of zero and a positive reading level, the division is
performed under IEEE semantics and the fill percentage is silently set to
positive Infinity; no error is signalled and the tank record is updated. -/
theorem updateReadings_zero_capacity_coerces (t : OxygenTank) (lv : ℚ)
    (p : JSNum) (temp hum : Option JSNum) (now : Int)
    (hc : t.capacity = .finite 0) (hl : 0 < lv) :
    (t.updateReadings (.finite lv) p temp hum now).fillPercentage = JSNum.posInf ∧
    (t.updateReadings (.finite lv) p temp hum now).lastReadingAt = some now := by
  constructor
  · simp [OxygenTank.updateReadings, hc, jsDiv, jsMul, hl]
  · rfl

/-- C5 witness: the amended statement at the concrete zero-capacity tank. -/
theorem updateReadings_zero_capacity_coerces_witness :
    (zeroCapTank.updateReadings (.finite 15) (.finite 90) none none 3).fillPercentage
      = JSNum.posInf ∧
    (zeroCapTank.updateReadings (.finite 15) (.finite 90) none none 3).lastReadingAt
      = some 3 :=
  updateReadings_zero_capacity_coerces zeroCapTank 15 (.finite 90) none none 3
    rfl (by norm_num)

/-- C6: for a tank with positive finite capacity and finite refill
threshold, after `updateReadings` stores a finite level the low-level
condition `needsRefill` is breached exactly when
`currentLevel / capacity * 100 <= refillThreshold`, and the stored fill
percentage is exactly that quotient. -/
theorem needsRefill_iff_fill_le_threshold (t : OxygenTank) (c lv r : ℚ)
    (p : JSNum) (temp hum : Option JSNum) (now : Int)
    (hc : t.capacity = .finite c) (hcpos : 0 < c)
    (hr : t.refillThreshold = .finite r) :
    ((t.updateReadings (.finite lv) p temp hum now).needsRefill = true
      ↔ lv / c * 100 ≤ r) ∧
    (t.updateReadings (.finite lv) p temp hum now).fillPercentage
      = .finite (lv / c * 100) := by
  have hc0 : c ≠ 0 := ne_of_gt hcpos
  constructor
  · simp [OxygenTank.needsRefill, OxygenTank.updateReadings, hc, hr, jsDiv,
      jsMul, jsLe, hc0]
  · simp [OxygenTank.updateReadings, hc, jsDiv, jsMul, hc0]

/-- C6 witness: capacity 100, level 15, threshold 20 — the low-level
condition is breached and the stored fill percentage is 15. -/
theorem needsRefill_iff_fill_le_threshold_witness :
    (0:ℚ) < 100 ∧
    (baseTank.updateReadings (.finite 15) (.finite 90) none none 4).needsRefill
      = true ∧
    (baseTank.updateReadings (.finite 15) (.finite 90) none none 4).fillPercentage
      = .finite 15 := by
  have h := needsRefill_iff_fill_le_threshold baseTank 100 15 20 (.finite 90)
    none none 4 rfl (by norm_num) rfl
  refine ⟨by norm_num, h.1.mpr (by norm_num), ?_⟩
  have h2 := h.2
  norm_num at h2
  exact h2

/-- C10: `isCritical` is breached exactly when the current pressure is at
most the configured critical pressure or the fill percentage is at most the
hardcoded constant 10; the answer does not depend on the configured refill
threshold. -/
theorem isCritical_hardcoded_ten (t : OxygenTank) (p cp fp : ℚ)
    (hp : t.currentPressure = .finite p)
    (hcp : t.criticalPressure = .finite cp)
    (hfp : t.fillPercentage = .finite fp) :
    (t.isCritical = true ↔ p ≤ cp ∨ fp ≤ 10) ∧
    ∀ r : JSNum,
      ({ t with refillThreshold := r } : OxygenTank).isCritical = t.isCritical := by
  constructor
  · simp [OxygenTank.isCritical, hp, hcp, hfp, jsLe]
  · intro r
    rfl

/-- C10 witness: a tank at 40 psi against a 50 psi critical pressure is
critical, and replacing its refill threshold by NaN does not change the
verdict. -/
theorem isCritical_hardcoded_ten_witness :
    critTank.isCritical = true ∧
    ({ critTank with refillThreshold := JSNum.nan } : OxygenTank).isCritical
      = critTank.isCritical :=
  ⟨(isCritical_hardcoded_ten critTank 40 50 80 rfl rfl rfl).1.mpr (by norm_num),
   (isCritical_hardcoded_ten critTank 40 50 80 rfl rfl rfl).2 JSNum.nan⟩

/-! ## Theorems about the alert lifecycle -/

/-- No single mutating method decreases `escalationLevel`. -/
theorem applyOp_escalationLevel_mono (op : AlertOp) (a : Alert) :
    a.escalationLevel ≤ (applyOp op a).escalationLevel := by
  cases op <;>
    simp [applyOp, Alert.acknowledge, Alert.resolve, Alert.escalate,
      Alert.dismiss, Alert.addNotification, Alert.addActionHistory]

/-- Unfolding one step of `runOps`. -/
theorem runOps_cons (op : AlertOp) (ops : List AlertOp) (a : Alert) :
    runOps (op :: ops) a = runOps ops (applyOp op a) :=
  rfl

/-- `escalationLevel` is non-decreasing along any sequence of mutating
method invocations. -/
theorem runOps_escalationLevel_mono (ops : List AlertOp) (a : Alert) :
    a.escalationLevel ≤ (runOps ops a).escalationLevel := by
  induction ops generalizing a with
  | nil => exact le_refl _
  | cons op rest ih =>
    calc a.escalationLevel ≤ (applyOp op a).escalationLevel :=
          applyOp_escalationLevel_mono op a
      _ ≤ (runOps rest (applyOp op a)).escalationLevel := ih (applyOp op a)
      _ = (runOps (op :: rest) a).escalationLevel := by rw [runOps_cons]

/-- C1 counterexample: `acknowledge` invoked on a Resolved alert — a
transition the spec lists as illegal — does not reject: it changes the
status, the acknowledgment timestamp and the acknowledgment counter. -/
theorem acknowledge_on_resolved_mutates :
    (resolvedAlert.acknowledge "opY" none 7).status ≠ resolvedAlert.status ∧
    (resolvedAlert.acknowledge "opY" none 7).acknowledgmentCount
      ≠ resolvedAlert.acknowledgmentCount ∧
    (resolvedAlert.acknowledge "opY" none 7).acknowledgedAt
      ≠ resolvedAlert.acknowledgedAt ∧
    (resolvedAlert.acknowledge "opY" none 7).status = .acknowledged := by
  decide

/-- C1 (amended): the transition methods enforce no legality check: from
any status whatsoever — including the terminal Resolved and Dismissed —
acknowledge, resolve, escalate and dismiss all succeed without signalling
any error, set the status to Acknowledged/Resolved/Escalated/Dismissed
respectively, and apply their usual mutations (e.g. acknowledge always
increments the acknowledgment counter). -/
theorem transitions_unchecked (a : Alert) (x y : String)
    (n r : Option String) (now : Int) :
    (a.acknowledge x n now).status = .acknowledged ∧
    (a.resolve x n now).status = .resolved ∧
    (a.escalate x y now).status = .escalated ∧
    (a.dismiss x r now).status = .dismissed ∧
    (a.acknowledge x n now).acknowledgmentCount = a.acknowledgmentCount + 1 :=
  ⟨rfl, rfl, rfl, rfl, rfl⟩

/-- C2 (code bug): `escalationDelay` is stored in seconds (default 300,
documented in the source as five minutes), but `shouldEscalate` compares
it against `getDuration`, which is measured in minutes.  An Active
auto-escalating alert created 301 seconds ago therefore has duration 5 and
is NOT flagged for escalation; the flag only turns on once 300 minutes
have elapsed. -/
theorem shouldEscalate_minutes_seconds_mismatch :
    autoAlert.autoEscalate = true ∧
    autoAlert.status = .active ∧
    autoAlert.escalationDelay = 300 ∧
    Alert.getDuration autoAlert 301000 = 5 ∧
    Alert.shouldEscalate autoAlert 301000 = false ∧
    Alert.shouldEscalate autoAlert 18000000 = true := by
  decide

/-- C3 counterexample: re-acknowledging an already acknowledged alert
overwrites both the acknowledging actor and the acknowledgment timestamp —
the first acknowledgment does not win. -/
theorem reacknowledge_overwrites_cex :
    (ackedAlert.acknowledge "opB" none 20).acknowledgedAt
      ≠ ackedAlert.acknowledgedAt ∧
    (ackedAlert.acknowledge "opB" none 20).acknowledgedBy
      ≠ ackedAlert.acknowledgedBy ∧
    (ackedAlert.acknowledge "opB" none 20).acknowledgedAt = some 20 ∧
    (ackedAlert.acknowledge "opB" none 20).acknowledgedBy = some "opB" := by
  decide

/-- C3 (amended): on an alert whose acknowledgment timestamp is already
set, a subsequent acknowledge OVERWRITES `acknowledgedBy` and
`acknowledgedAt` with the new actor and call time (last acknowledgment
wins), while `acknowledgmentCount` still increments by one and exactly one
action-history entry is appended. -/
theorem acknowledge_overwrites_fields (a : Alert) (actor : String)
    (n : Option String) (now t0 : Int) (_h : a.acknowledgedAt = some t0) :
    (a.acknowledge actor n now).acknowledgedAt = some now ∧
    (a.acknowledge actor n now).acknowledgedBy = some actor ∧
    (a.acknowledge actor n now).acknowledgmentCount
      = a.acknowledgmentCount + 1 ∧
    ((a.acknowledge actor n now).actionHistory.getD []).length
      = (a.actionHistory.getD []).length + 1 := by
  refine ⟨rfl, rfl, rfl, ?_⟩
  simp [Alert.acknowledge, Alert.addActionHistory]

/-- C3 witness: the amended statement at the concrete already-acknowledged
alert. -/
theorem acknowledge_overwrites_fields_witness :
    (ackedAlert.acknowledge "opB" none 20).acknowledgedAt = some 20 ∧
    (ackedAlert.acknowledge "opB" none 20).acknowledgedBy = some "opB" ∧
    (ackedAlert.acknowledge "opB" none 20).acknowledgmentCount
      = ackedAlert.acknowledgmentCount + 1 ∧
    ((ackedAlert.acknowledge "opB" none 20).actionHistory.getD []).length
      = (ackedAlert.actionHistory.getD []).length + 1 :=
  acknowledge_overwrites_fields ackedAlert "opB" none 20 10 rfl

/-- C4: every `escalate` call sets status Escalated together with
`escalatedTo`, `escalatedAt` and `escalationReason`, increments
`escalationLevel` by exactly one, and appends exactly one entry to each of
the escalation history and the action history; moreover `escalationLevel`
is non-decreasing across any sequence of mutating operations on a single
alert instance. -/
theorem escalate_effects_and_monotonic (a : Alert) (target reason : String)
    (now : Int) :
    (a.escalate target reason now).status = .escalated ∧
    (a.escalate target reason now).escalatedTo = some target ∧
    (a.escalate target reason now).escalatedAt = some now ∧
    (a.escalate target reason now).escalationReason = some reason ∧
    (a.escalate target reason now).escalationLevel = a.escalationLevel + 1 ∧
    ((a.escalate target reason now).escalationHistory.getD []).length
      = (a.escalationHistory.getD []).length + 1 ∧
    ((a.escalate target reason now).actionHistory.getD []).length
      = (a.actionHistory.getD []).length + 1 ∧
    ∀ ops : List AlertOp, a.escalationLevel ≤ (runOps ops a).escalationLevel := by
  refine ⟨rfl, rfl, rfl, rfl, rfl, ?_, ?_, fun ops => runOps_escalationLevel_mono ops a⟩
  · simp [Alert.escalate, Alert.addActionHistory]
  · simp [Alert.escalate, Alert.addActionHistory]

/-- C7 counterexample: `dismiss` succeeds (the status becomes Dismissed and
one action-history entry is appended) yet it sets NO transition timestamp:
`acknowledgedAt`, `resolvedAt` and `escalatedAt` are all left untouched. -/
theorem dismiss_sets_no_timestamp_cex :
    (baseAlert.dismiss "opX" none 5).status = .dismissed ∧
    ((baseAlert.dismiss "opX" none 5).actionHistory.getD []).length = 1 ∧
    (baseAlert.dismiss "opX" none 5).acknowledgedAt = none ∧
    (baseAlert.dismiss "opX" none 5).resolvedAt = none ∧
    (baseAlert.dismiss "opX" none 5).escalatedAt = none := by
  decide

/-- C7 (amended): every transition method appends exactly one
action-history entry; acknowledge, resolve and escalate each set exactly
the one timestamp ascribed to them (`acknowledgedAt`, `resolvedAt`,
`escalatedAt`) and leave the other two untouched, while dismiss sets no
transition timestamp at all. -/
theorem transition_history_and_timestamps (a : Alert) (x y : String)
    (n m r : Option String) (now : Int) :
    ((a.acknowledge x n now).actionHistory.getD []).length
      = (a.actionHistory.getD []).length + 1 ∧
    ((a.resolve x m now).actionHistory.getD []).length
      = (a.actionHistory.getD []).length + 1 ∧
    ((a.escalate x y now).actionHistory.getD []).length
      = (a.actionHistory.getD []).length + 1 ∧
    ((a.dismiss x r now).actionHistory.getD []).length
      = (a.actionHistory.getD []).length + 1 ∧
    (a.acknowledge x n now).acknowledgedAt = some now ∧
    (a.acknowledge x n now).resolvedAt = a.resolvedAt ∧
    (a.acknowledge x n now).escalatedAt = a.escalatedAt ∧
    (a.resolve x m now).resolvedAt = some now ∧
    (a.resolve x m now).acknowledgedAt = a.acknowledgedAt ∧
    (a.resolve x m now).escalatedAt = a.escalatedAt ∧
    (a.escalate x y now).escalatedAt = some now ∧
    (a.escalate x y now).acknowledgedAt = a.acknowledgedAt ∧
    (a.escalate x y now).resolvedAt = a.resolvedAt ∧
    (a.dismiss x r now).acknowledgedAt = a.acknowledgedAt ∧
    (a.dismiss x r now).resolvedAt = a.resolvedAt ∧
    (a.dismiss x r now).escalatedAt = a.escalatedAt := by
  refine ⟨?_, ?_, ?_, ?_, rfl, rfl, rfl, rfl, rfl, rfl, rfl, rfl, rfl, rfl,
    rfl, rfl⟩ <;>
    simp [Alert.acknowledge, Alert.resolve, Alert.escalate, Alert.dismiss,
      Alert.addActionHistory]

/-- C8: in any status — including Resolved and Dismissed — recording a
notification succeeds, appends exactly one entry to the notification
history, increments `notificationCount` by one, and leaves the status (and
every transition timestamp) unchanged. -/
theorem addNotification_any_state_effects (a : Alert)
    (m : NotificationMethod) (recipient : String) (s : DeliveryStatus)
    (e : Option String) (now : Int) :
    ((a.addNotification m recipient s e now).notificationHistory.getD []).length
      = (a.notificationHistory.getD []).length + 1 ∧
    (a.addNotification m recipient s e now).notificationCount
      = a.notificationCount + 1 ∧
    (a.addNotification m recipient s e now).status = a.status ∧
    (a.addNotification m recipient s e now).acknowledgedAt = a.acknowledgedAt ∧
    (a.addNotification m recipient s e now).resolvedAt = a.resolvedAt ∧
    (a.addNotification m recipient s e now).escalatedAt = a.escalatedAt := by
  refine ⟨?_, rfl, rfl, rfl, rfl, rfl⟩
  simp [Alert.addNotification]

/-- C9: acknowledging with a non-empty notes argument additionally mutates
the alert's free-text `notes` column: the incoming notes are appended to
the existing non-empty notes with a newline separator, and become the
whole column when it was null or empty. -/
theorem acknowledge_appends_notes (a : Alert) (actor s : String)
    (now : Int) (hs : s ≠ "") :
    ((a.notes = none ∨ a.notes = some "") →
      (a.acknowledge actor (some s) now).notes = some s) ∧
    ∀ t : String, a.notes = some t → t ≠ "" →
      (a.acknowledge actor (some s) now).notes = some (t ++ "\n" ++ s) := by
  constructor
  · rintro (h | h) <;>
      simp [Alert.acknowledge, Alert.addActionHistory, Alert.notesAfter,
        strTruthy, strOrEmpty, h, hs]
  · intro t ht htne
    simp [Alert.acknowledge, Alert.addActionHistory, Alert.notesAfter,
      strTruthy, strOrEmpty, ht, hs, htne]

/-- C9 witness: acknowledging the alert whose notes column holds "old"
with fresh notes "extra" yields "old", a newline, then "extra". -/
theorem acknowledge_appends_notes_witness :
    (notedAlert.acknowledge "op" (some "extra") 9).notes
      = some ("old" ++ "\n" ++ "extra") :=
  (acknowledge_appends_notes notedAlert "op" "extra" 9 (by decide)).2 "old"
    rfl (by decide)

end SOS
